import Mathlib

/-!
Verification of the MOM (Memory Overcommitment Manager) monitor/controller core.

Shallow embedding of three source files:
- `mom/Monitor.py` (class `Monitor`: field-set reconciliation, per-cycle fragment
  merging, mandatory-field gating, bounded history, readiness, termination);
- `mom/Controllers/KSM.py` (class `KSM`: diff-only knob reconciliation and the
  per-knob file-write primitive `write_value`);
- `mom/Collectors/Collector.py` (`get_collectors`: all-or-nothing construction).

Modelling conventions: Python values stored in a sample are `Option Int`
(`none` is Python `None`); a Python dict is an insertion-ordered association
list (`List (String × Option Int)`); Python `set`s of field names are lists
read up to membership (set union is list append, set difference is a filter);
Python exceptions raised by a collector's `collect()` are the constructors of
`CollectResult`; `IOError` raised by a file write is modelled by a partial map
from file name to the error string.
-/

/-- A Python value held in a statistics sample: `none` models Python `None`. -/
abbrev Value := Option Int

/-- A Python dict used as a sample fragment: an insertion-ordered association
list from field name to value. -/
abbrev Frag := List (String × Value)

/-- Python dict assignment `d[k] = v`: replace in place if the key is present,
otherwise append at the end (insertion order). -/
def setField : Frag → String → Value → Frag
  | [], k, v => [(k, v)]
  | (k', v') :: rest, k, v =>
    if k' = k then (k, v) :: rest else (k', v') :: setField rest k v

/-- One step of the merge loop body in `Monitor.collect` (Monitor.py:100-101):
`if key not in data or data[key] is None: data[key] = val`. -/
def mergeItem (data : Frag) (kv : String × Value) : Frag :=
  match data.lookup kv.1 with
  | none => setField data kv.1 kv.2
  | some none => setField data kv.1 kv.2
  | some (some _) => data

/-- Merging one collector fragment into the accumulator, iterating the
fragment's items in insertion order (Monitor.py:99-101). -/
def mergeFrag (data : Frag) (fr : Frag) : Frag :=
  fr.foldl mergeItem data

theorem lookup_setField_self (d : Frag) (k : String) (v : Value) :
    (setField d k v).lookup k = some v := by
  induction d with
  | nil => simp [setField, List.lookup]
  | cons hd tl ih =>
    obtain ⟨k', v'⟩ := hd
    by_cases h : k' = k
    · simp [setField, h, List.lookup]
    · have hb : (k == k') = false := beq_eq_false_iff_ne.mpr (Ne.symm h)
      simp [setField, h, List.lookup, hb, ih]

theorem lookup_setField_ne (d : Frag) (k k' : String) (v : Value) (h : k ≠ k') :
    (setField d k' v).lookup k = d.lookup k := by
  have hb : (k == k') = false := beq_eq_false_iff_ne.mpr h
  induction d with
  | nil => simp [setField, List.lookup, hb]
  | cons hd tl ih =>
    obtain ⟨k'', v''⟩ := hd
    by_cases h2 : k'' = k'
    · subst h2
      simp [setField, List.lookup, hb]
    · by_cases h3 : k'' = k
      · simp [setField, h2, h3, List.lookup, h]
      · have hb3 : (k == k'') = false := beq_eq_false_iff_ne.mpr (Ne.symm h3)
        simp [setField, h2, List.lookup, hb3, ih]

theorem mergeItem_preserves_nonnull (d : Frag) (kv : String × Value)
    (k : String) (v : Int) (h : d.lookup k = some (some v)) :
    (mergeItem d kv).lookup k = some (some v) := by
  unfold mergeItem
  by_cases hk : kv.1 = k
  · rw [hk, h]
    exact h
  · cases hl : d.lookup kv.1 with
    | none =>
      rw [lookup_setField_ne d k kv.1 kv.2 (fun hkk => hk hkk.symm)]
      exact h
    | some w =>
      cases w with
      | none =>
        rw [lookup_setField_ne d k kv.1 kv.2 (fun hkk => hk hkk.symm)]
        exact h
      | some x => exact h

theorem mergeFrag_preserves_nonnull (fr : Frag) (d : Frag)
    (k : String) (v : Int) (h : d.lookup k = some (some v)) :
    (mergeFrag d fr).lookup k = some (some v) := by
  induction fr generalizing d with
  | nil => exact h
  | cons kv rest ih =>
    exact ih (mergeItem d kv) (mergeItem_preserves_nonnull d kv k v h)

/-- Outcome of one collector's `collect()` call this cycle, covering the
return values and exceptions handled in Monitor.py:93-109: a fragment, the
Python `None` return, a raised `Collector.CollectionError`, a raised
`Collector.FatalError`, or any other exception. -/
inductive CollectResult where
  | ok (frag : Frag)
  | noData
  | collectionErr (msg : String)
  | fatalErr (msg : String)
  | unexpectedErr
deriving DecidableEq

/-- A collector as the Monitor sees it in one cycle: its declared mandatory
fields (`getFields`), declared optional fields (`getOptionalFields`), and the
outcome of its `collect()` call this cycle. Field-name sets are modelled as
lists read up to membership. -/
structure Collector where
  getFields : List String
  getOptionalFields : List String
  collect : CollectResult
deriving DecidableEq

/-- The collector loop of `Monitor.collect` (Monitor.py:92-109): invoke each
collector in declared order, skip on `None`, merge fragments first-writer-wins,
continue past `CollectionError` and unexpected exceptions, and abort with the
message on `FatalError`. -/
def runCollectors : List Collector → Frag → Except String Frag
  | [], data => Except.ok data
  | c :: rest, data =>
    match c.collect with
    | CollectResult.ok frag => runCollectors rest (mergeFrag data frag)
    | CollectResult.noData => runCollectors rest data
    | CollectResult.collectionErr _ => runCollectors rest data
    | CollectResult.fatalErr msg => Except.error msg
    | CollectResult.unexpectedErr => runCollectors rest data

/-- The mutable state of a `Monitor` relevant to `collect()` (Monitor.py:31-50):
memoized field sets (`None` before the first cycle), the statistics deque
(oldest first), the tri-state `ready` flag (`none` models Python `None`,
the `Unknown` state), and the cooperative `_terminate` flag. -/
structure MonitorState where
  fields : Option (List String)
  optional_fields : Option (List String)
  statistics : List Frag
  ready : Option Bool
  _terminate : Bool
deriving DecidableEq

/-- A Monitor's state at construction time (Monitor.py:31-50). -/
def initState : MonitorState :=
  { fields := none, optional_fields := none, statistics := [],
    ready := none, _terminate := false }

/-- The mandatory field set used by a cycle: memoized `self.fields` when
already populated, otherwise the union of every collector's `getFields()`
(Monitor.py:70-74); set union modelled as list append. -/
def monitorFields (cs : List Collector) (st : MonitorState) : List String :=
  match st.fields with
  | none => cs.foldl (fun acc c => acc ++ c.getFields) []
  | some f => f

/-- The optional field set before reconciliation: memoized
`self.optional_fields` when populated, otherwise the union of every
collector's `getOptionalFields()` (Monitor.py:77-81). -/
def monitorOptional0 (cs : List Collector) (st : MonitorState) : List String :=
  match st.optional_fields with
  | none => cs.foldl (fun acc c => acc ++ c.getOptionalFields) []
  | some o => o

/-- `self.optional_fields.difference(self.fields)` (Monitor.py:86): remove
mandatory fields from the optional list. -/
def monitorOptional (cs : List Collector) (st : MonitorState) : List String :=
  (monitorOptional0 cs st).filter (fun k => !((monitorFields cs st).contains k))

/-- `data.setdefault(k, None)` over every optional field (Monitor.py:117-118):
put `None` to all unset optional fields. -/
def fillOptional (data : Frag) (opt : List String) : Frag :=
  opt.foldl (fun d k =>
    match d.lookup k with
    | none => setField d k none
    | some _ => d) data

/-- The history update (Monitor.py:121-123): append the sample, then pop the
oldest entry if the deque exceeds the configured
`sample-history-length` bound. -/
def histAppend (histlen : Nat) (hist : List Frag) (d : Frag) : List Frag :=
  let s := hist ++ [d]
  if histlen < s.length then s.tail else s

/-- `Monitor.collect` (Monitor.py:56-130) as a state transformer: memoize the
field sets, reconcile optional against mandatory, run the collectors, and
either abort on a fatal error (not ready, terminate requested), reject an
accumulator missing a mandatory field (not ready, no sample), or fill the
optional fields, append to bounded history and become ready. Returns the new
state and the Python return value (`none` models returning `None`). The
plotter and logging are external side effects and not modelled. -/
def Monitor.collect (histlen : Nat) (cs : List Collector) (st : MonitorState) :
    MonitorState × Option Frag :=
  let fields := monitorFields cs st
  let optional := monitorOptional cs st
  match runCollectors cs [] with
  | Except.error _ =>
    ({ st with fields := some fields, optional_fields := some optional,
               ready := some false, _terminate := true }, none)
  | Except.ok data =>
    if fields.all (fun f => (data.lookup f).isSome) then
      let full := fillOptional data optional
      ({ st with fields := some fields, optional_fields := some optional,
                 statistics := histAppend histlen st.statistics full,
                 ready := some true }, some full)
    else
      ({ st with fields := some fields, optional_fields := some optional,
                 ready := some false }, none)

/-- `Monitor.should_run` (Monitor.py:187-192): the `running` config toggle
equals 1 and termination has not been requested. -/
def should_run (running : Int) (st : MonitorState) : Bool :=
  running == 1 && !st._terminate

/-- The fixed knob-name list `self.keys` of the KSM controller (KSM.py:32-33). -/
def KSM.keys : List String :=
  ["run", "pages_to_scan", "sleep_millisecs", "merge_across_nodes"]

/-- The host object as `KSM.process` reads it (KSM.py:46-51):
`getControl name` models `host.GetControl(name)` with the value already put
through `int(...)` (`none` models a `None` directive, i.e. absent this cycle);
`lastApplied name` models `getattr(host, name, None)`, the last-applied value
attribute, `none` when the attribute is absent. -/
structure KSMHost where
  getControl : String → Option Int
  lastApplied : String → Option Int

/-- The `outputs` dict built by the knob loop of `KSM.process` (KSM.py:44-55):
skip a knob whose directive is absent; include `(key, rule_var)` exactly when
`rule_var != before_var` under Python semantics, where an `int` never equals
`None`. -/
def KSM.processOutputs (host : KSMHost) : List (String × Int) :=
  KSM.keys.foldl (fun outputs key =>
    match host.getControl ("ksm_" ++ key) with
    | none => outputs
    | some rule_var =>
      if (some rule_var : Option Int) ≠ host.lastApplied ("ksm_" ++ key) then
        outputs ++ [(key, rule_var)]
      else outputs) []

/-- The batched hypervisor calls issued by one `KSM.process` cycle
(KSM.py:57-59): one `ksmTune(outputs)` call when `outputs` is non-empty,
otherwise none. -/
def KSM.tuneCalls (host : KSMHost) : List (List (String × Int)) :=
  let outputs := KSM.processOutputs host
  if 0 < outputs.length then [outputs] else []

/-- Stated from the spec's words, for comparison with `KSM.processOutputs`:
the diff map holds exactly the knobs whose present, integer-coerced desired
value differs from the host's last-applied value. -/
def ksmDiffSpec (host : KSMHost) : List (String × Int) :=
  KSM.keys.filterMap (fun key =>
    (host.getControl ("ksm_" ++ key)).bind (fun rule_var =>
      if (some rule_var : Option Int) ≠ host.lastApplied ("ksm_" ++ key) then
        some (key, rule_var)
      else none))

/-- Outcome of resolving one collector name in `get_collectors`
(Collector.py:91-99): the module imports and the constructor returns an
instance, or the import fails (`ImportError`), or construction raises
`FatalError`. -/
inductive ResolveOutcome where
  | ok (c : Collector)
  | importErr
  | fatal (msg : String)

/-- `get_collectors` (Collector.py:67-100) over an already-split,
already-stripped name list: skip empty names, append each successfully
constructed collector in declared order, and return `None` (zero collectors)
as soon as any name fails to import or its construction raises `FatalError`.
`resolve` models dynamic import plus construction for one name. -/
def get_collectors (resolve : String → ResolveOutcome) :
    List String → List Collector → Option (List Collector)
  | [], acc => some acc
  | n :: rest, acc =>
    if n = "" then get_collectors resolve rest acc
    else
      match resolve n with
      | ResolveOutcome.ok c => get_collectors resolve rest (acc ++ [c])
      | ResolveOutcome.importErr => none
      | ResolveOutcome.fatal _ => none

/-- The warning line logged by `KSM.write_value` on a failed write
(KSM.py:41). -/
def ksmLog (fname strerror : String) : String :=
  "KSM: Failed to write " ++ fname ++ ": " ++ strerror

/-- `KSM.write_value` (KSM.py:36-41): attempt the file write; on `IOError`
log a warning and return normally. `fsErr fname = some e` models the write to
`fname` raising `IOError` with `strerror = e`; `none` models success. The
return value is the list of log lines produced: the type shows no error
escapes the method. -/
def write_value (fsErr : String → Option String) (fname : String) (_value : Int) :
    List String :=
  match fsErr fname with
  | none => []
  | some e => [ksmLog fname e]

/-- Modelled from the spec: applying a batched knob map means performing the
per-knob writes in sequence through `write_value`; the iteration itself lives
behind the hypervisor interface (`ksmTune`, external to this repository),
while the per-knob write primitive and its error handling are
`KSM.write_value`. Returns the concatenated log lines of the whole batch. -/
def write_batch (fsErr : String → Option String) (knobs : List (String × Int)) :
    List String :=
  knobs.foldl (fun logs kv => logs ++ write_value fsErr kv.1 kv.2) []

/-- Collector A of the spec's worked example: priority 1, mandatory field
`x`, returns `{x: 5}`. -/
def collA1 : Collector :=
  { getFields := ["x"], getOptionalFields := [],
    collect := CollectResult.ok [("x", some 5)] }

/-- Collector B of the spec's worked example: priority 2, returns `{x: 9}`. -/
def collB1 : Collector :=
  { getFields := [], getOptionalFields := [],
    collect := CollectResult.ok [("x", some 9)] }

/-- Collector A of the explicit-null edge case: priority 1, mandatory field
`x`, returns `{x: null}`. -/
def collA2 : Collector :=
  { getFields := ["x"], getOptionalFields := [],
    collect := CollectResult.ok [("x", none)] }

/-- C1: merging collector fragments is first-writer-wins for non-null values —
once the accumulator holds a non-null value for a field, running any further
collectors (in declared order) never replaces it. -/
theorem runCollectors_first_nonnull_wins (cs : List Collector)
    (data data' : Frag) (k : String) (v : Int)
    (hrun : runCollectors cs data = Except.ok data')
    (h : data.lookup k = some (some v)) :
    data'.lookup k = some (some v) := by
  induction cs generalizing data with
  | nil =>
    simp [runCollectors] at hrun
    exact hrun ▸ h
  | cons c rest ih =>
    unfold runCollectors at hrun
    cases hc : c.collect with
    | ok frag =>
      rw [hc] at hrun
      exact ih (mergeFrag data frag) hrun (mergeFrag_preserves_nonnull frag data k v h)
    | noData => rw [hc] at hrun; exact ih data hrun h
    | collectionErr msg => rw [hc] at hrun; exact ih data hrun h
    | fatalErr msg => rw [hc] at hrun; cases hrun
    | unexpectedErr => rw [hc] at hrun; exact ih data hrun h

/-- Witness for C1 at the spec's worked example: with the accumulator holding
`x = 5` from collector A, running collector B (`{x: 9}`) leaves `x = 5`; and
the full `Monitor.collect` over A then B merges to `x = 5`. -/
theorem runCollectors_first_nonnull_wins_witness :
    runCollectors [collB1] [("x", some 5)] = Except.ok [("x", some 5)] ∧
    (([("x", some 5)] : Frag).lookup ("x") = some (some 5)) ∧
    (([("x", some 5)] : Frag).lookup ("x") = some (some 5)) ∧
    (Monitor.collect 10 [collA1, collB1] initState).2 = some [("x", some 5)] :=
  ⟨rfl, by decide,
   runCollectors_first_nonnull_wins [collB1] [("x", some 5)] [("x", some 5)]
     "x" 5 rfl (by decide),
   by decide⟩

/-- C2 counterexample: with collector A returning `{x: null}` and collector B
returning `{x: 9}`, the merged sample produced by `Monitor.collect` holds
`x = 9`, not `null` — the merge condition `key not in data or data[key] is
None` (Monitor.py:100) lets a later collector overwrite an explicit null. -/
theorem merge_null_not_sticky_cex :
    (Monitor.collect 10 [collA2, collB1] initState).2 = some [("x", some 9)] ∧
    ([("x", some 9)] : Frag).lookup ("x") ≠ some none := by
  exact ⟨by decide, by decide⟩

/-- C2 amended: an explicit null written first is not sticky — when the
accumulator holds an explicit null for a field, a later collector's item for
that field (the merge-loop step of Monitor.py:100-101) overwrites it with the
later value. -/
theorem mergeItem_overwrites_null (d : Frag) (k : String) (v : Value)
    (h : d.lookup k = some none) :
    (mergeItem d (k, v)).lookup k = some v := by
  have hstep : mergeItem d (k, v) = setField d k v := by
    unfold mergeItem
    rw [show ((k, v).1 : String) = k from rfl, h]
  rw [hstep, lookup_setField_self]

/-- Witness for the amended C2 at the edge case: the accumulator `{x: null}`
left by collector A, merged with collector B's item `(x, 9)`, yields `x = 9`. -/
theorem mergeItem_overwrites_null_witness :
    ([("x", none)] : Frag).lookup ("x") = some none ∧
    (mergeItem [("x", none)] ("x", some 9)).lookup ("x") = some (some 9) :=
  ⟨by decide, mergeItem_overwrites_null [("x", none)] "x" (some 9) (by decide)⟩

theorem collect_fieldSets (histlen : Nat) (cs : List Collector)
    (st : MonitorState) :
    (Monitor.collect histlen cs st).1.fields = some (monitorFields cs st) ∧
    (Monitor.collect histlen cs st).1.optional_fields
      = some (monitorOptional cs st) := by
  unfold Monitor.collect
  cases runCollectors cs [] with
  | error msg => exact ⟨rfl, rfl⟩
  | ok data =>
    dsimp only
    split
    · exact ⟨rfl, rfl⟩
    · exact ⟨rfl, rfl⟩

/-- A collector declaring `x` both mandatory and (with `y`) optional, used to
check the optional-set reconciliation on an overlapping declaration. -/
def collOverlap : Collector :=
  { getFields := ["x"], getOptionalFields := ["x", "y"],
    collect := CollectResult.ok [("x", some 1), ("y", some 2)] }

/-- C3: after any `collect()` invocation, the Monitor's mandatory and optional
field sets are disjoint — any field in the computed mandatory set is filtered
out of the optional set (Monitor.py:86), whatever the collectors declared. -/
theorem collect_fields_disjoint (histlen : Nat) (cs : List Collector)
    (st : MonitorState) (k : String)
    (hmem : k ∈ ((Monitor.collect histlen cs st).1.fields.getD [])) :
    k ∉ ((Monitor.collect histlen cs st).1.optional_fields.getD []) := by
  obtain ⟨hf, ho⟩ := collect_fieldSets histlen cs st
  rw [hf] at hmem
  rw [ho]
  simp only [Option.getD_some] at hmem ⊢
  intro hopt
  have hc := (List.mem_filter.mp hopt).2
  simp at hc
  exact hc hmem

/-- Witness for C3 on a collector that declares `x` both mandatory and
optional: after `collect()`, `x` is in the mandatory set and not in the
optional set. -/
theorem collect_fields_disjoint_witness :
    "x" ∈ ((Monitor.collect 5 [collOverlap] initState).1.fields.getD []) ∧
    "x" ∉ ((Monitor.collect 5 [collOverlap] initState).1.optional_fields.getD []) :=
  ⟨by decide, collect_fields_disjoint 5 [collOverlap] initState ("x") (by decide)⟩

theorem histAppend_length_le (histlen : Nat) (hist : List Frag) (d : Frag)
    (h : hist.length ≤ histlen) :
    (histAppend histlen hist d).length ≤ histlen := by
  unfold histAppend
  dsimp only
  split <;> simp_all

theorem histAppend_evict (histlen : Nat) (hist : List Frag) (d : Frag)
    (hfull : hist.length = histlen) (hpos : 0 < histlen) :
    histAppend histlen hist d = hist.tail ++ [d] := by
  unfold histAppend
  dsimp only
  rw [if_pos (by simp [hfull])]
  cases hist with
  | nil => simp at hfull; omega
  | cons a rest => rfl

theorem collect_statistics_cases (histlen : Nat) (cs : List Collector)
    (st : MonitorState) :
    ((Monitor.collect histlen cs st).2 = none ∧
      (Monitor.collect histlen cs st).1.statistics = st.statistics) ∨
    (∃ d, (Monitor.collect histlen cs st).2 = some d ∧
      (Monitor.collect histlen cs st).1.statistics
        = histAppend histlen st.statistics d) := by
  unfold Monitor.collect
  cases runCollectors cs [] with
  | error msg => exact Or.inl ⟨rfl, rfl⟩
  | ok data =>
    dsimp only
    split
    · exact Or.inr ⟨_, rfl, rfl⟩
    · exact Or.inl ⟨rfl, rfl⟩

/-- C4: across any successful collection cycle, history length stays within
the configured bound, and when the history is full the cycle that appends a
sample evicts exactly the oldest entry, leaving the newest `N` samples in
insertion order. -/
theorem collect_history_bounded (histlen : Nat) (cs : List Collector)
    (st : MonitorState) (hlen : st.statistics.length ≤ histlen) :
    (Monitor.collect histlen cs st).1.statistics.length ≤ histlen ∧
    (∀ d, st.statistics.length = histlen → 0 < histlen →
      (Monitor.collect histlen cs st).2 = some d →
      (Monitor.collect histlen cs st).1.statistics
        = st.statistics.tail ++ [d]) := by
  rcases collect_statistics_cases histlen cs st with ⟨h2, h1⟩ | ⟨d, h2, h1⟩
  · refine ⟨by rw [h1]; exact hlen, ?_⟩
    intro d hfull hpos hsome
    rw [h2] at hsome
    cases hsome
  · refine ⟨by rw [h1]; exact histAppend_length_le histlen st.statistics d hlen, ?_⟩
    intro d' hfull hpos hsome
    rw [h2] at hsome
    cases hsome
    rw [h1, histAppend_evict histlen st.statistics d hfull hpos]

/-- A state whose history is already full (two samples with bound 2) used to
exercise the eviction path. -/
def fullState : MonitorState :=
  { fields := some ["x"], optional_fields := some [],
    statistics := [[("x", some 1)], [("x", some 2)]],
    ready := some true, _terminate := false }

/-- Witness for C4: with bound 2 and a full history `[s1, s2]`, a successful
cycle appending `s3` yields `[s2, s3]` — the oldest entry is evicted and
length stays at the bound. -/
theorem collect_history_bounded_witness :
    fullState.statistics.length ≤ 2 ∧
    (Monitor.collect 2 [collA1] fullState).1.statistics.length ≤ 2 ∧
    (fullState.statistics.length = 2 ∧ 0 < 2 ∧
      (Monitor.collect 2 [collA1] fullState).2 = some [("x", some 5)]) ∧
    (Monitor.collect 2 [collA1] fullState).1.statistics
      = fullState.statistics.tail ++ [[("x", some 5)]] :=
  ⟨by decide, (collect_history_bounded 2 [collA1] fullState (by decide)).1,
   ⟨by decide, by decide, by decide⟩,
   (collect_history_bounded 2 [collA1] fullState (by decide)).2
     [("x", some 5)] (by decide) (by decide) (by decide)⟩

/-- C5: a cycle whose merged accumulator misses a mandatory field records no
sample, leaves history unchanged, becomes `NotReady` and returns `None`
(Monitor.py:111-114); a cycle whose accumulator satisfies every mandatory
field appends the (optional-filled) sample to history and restores `Ready`
(Monitor.py:117-130). -/
theorem collect_mandatory_gate (histlen : Nat) (cs : List Collector)
    (st : MonitorState) (data : Frag)
    (hrun : runCollectors cs [] = Except.ok data) :
    ((∃ f, f ∈ monitorFields cs st ∧ data.lookup f = none) →
      (Monitor.collect histlen cs st).1.statistics = st.statistics ∧
      (Monitor.collect histlen cs st).1.ready = some false ∧
      (Monitor.collect histlen cs st).2 = none) ∧
    ((∀ f, f ∈ monitorFields cs st → (data.lookup f).isSome) →
      (Monitor.collect histlen cs st).1.ready = some true ∧
      (Monitor.collect histlen cs st).2
        = some (fillOptional data (monitorOptional cs st)) ∧
      (Monitor.collect histlen cs st).1.statistics
        = histAppend histlen st.statistics
            (fillOptional data (monitorOptional cs st))) := by
  unfold Monitor.collect
  rw [hrun]
  dsimp only
  constructor
  · rintro ⟨f, hf, hnone⟩
    have hall : ((monitorFields cs st).all fun f => (data.lookup f).isSome) = false := by
      rw [List.all_eq_false]
      exact ⟨f, hf, by simp [hnone]⟩
    rw [if_neg (by simp [hall])]
    exact ⟨rfl, rfl, rfl⟩
  · intro hsat
    have hall : ((monitorFields cs st).all fun f => (data.lookup f).isSome) = true := by
      rw [List.all_eq_true]
      exact fun f hf => hsat f hf
    rw [if_pos hall]
    exact ⟨rfl, rfl, rfl⟩

/-- A collector that declares mandatory field `x` but fails recoverably this
cycle, so the accumulator misses `x`. -/
def collMissing : Collector :=
  { getFields := ["x"], getOptionalFields := [],
    collect := CollectResult.collectionErr ("no data source") }

/-- Witness for C5: with a single collector declaring `x` but contributing
nothing, the cycle keeps history empty, turns `NotReady` and returns `None`;
the same Monitor state run with a working collector (`{x: 5}`) turns `Ready`
and appends the sample. -/
theorem collect_mandatory_gate_witness :
    (runCollectors [collMissing] [] = Except.ok [] ∧
      (Monitor.collect 3 [collMissing] initState).1.statistics = initState.statistics ∧
      (Monitor.collect 3 [collMissing] initState).1.ready = some false ∧
      (Monitor.collect 3 [collMissing] initState).2 = none) ∧
    (runCollectors [collA1] [] = Except.ok [("x", some 5)] ∧
      (Monitor.collect 3 [collA1] initState).1.ready = some true ∧
      (Monitor.collect 3 [collA1] initState).2
        = some (fillOptional [("x", some 5)] (monitorOptional [collA1] initState)) ∧
      (Monitor.collect 3 [collA1] initState).1.statistics
        = histAppend 3 initState.statistics
            (fillOptional [("x", some 5)] (monitorOptional [collA1] initState))) :=
  ⟨⟨rfl, (collect_mandatory_gate 3 [collMissing] initState [] rfl).1
      ⟨"x", by decide, by decide⟩⟩,
   ⟨rfl, (collect_mandatory_gate 3 [collA1] initState [("x", some 5)] rfl).2
      (by decide)⟩⟩

/-- C6: a cycle in which some collector raises `FatalError` marks the Monitor
`NotReady`, sets the termination flag (so `should_run` is false for any
`running` toggle), returns `None`, and leaves history unchanged
(Monitor.py:104-107, 159-163, 187-192). -/
theorem collect_fatal_aborts (histlen : Nat) (cs : List Collector)
    (st : MonitorState) (msg : String)
    (hrun : runCollectors cs [] = Except.error msg) :
    (Monitor.collect histlen cs st).1.ready = some false ∧
    (Monitor.collect histlen cs st).1._terminate = true ∧
    (Monitor.collect histlen cs st).2 = none ∧
    (Monitor.collect histlen cs st).1.statistics = st.statistics ∧
    (∀ running : Int, should_run running (Monitor.collect histlen cs st).1 = false) := by
  unfold Monitor.collect
  rw [hrun]
  exact ⟨rfl, rfl, rfl, rfl, fun running => by simp [should_run]⟩

/-- A collector whose `collect()` raises `FatalError` this cycle. -/
def collFatal : Collector :=
  { getFields := ["x"], getOptionalFields := [],
    collect := CollectResult.fatalErr ("device vanished") }

/-- Witness for C6: a monitor whose only collector fails fatally ends the
cycle `NotReady`, with termination requested, `None` returned, an unchanged
history, and `should_run 1` false. -/
theorem collect_fatal_aborts_witness :
    runCollectors [collFatal] [] = Except.error ("device vanished") ∧
    ((Monitor.collect 3 [collFatal] initState).1.ready = some false ∧
      (Monitor.collect 3 [collFatal] initState).1._terminate = true ∧
      (Monitor.collect 3 [collFatal] initState).2 = none ∧
      (Monitor.collect 3 [collFatal] initState).1.statistics = initState.statistics ∧
      (∀ running : Int,
        should_run running (Monitor.collect 3 [collFatal] initState).1 = false)) :=
  ⟨rfl, collect_fatal_aborts 3 [collFatal] initState ("device vanished") rfl⟩

theorem foldl_opt_append_eq_filterMap {α β : Type} (f : α → Option β)
    (ks : List α) (acc : List β) :
    ks.foldl (fun outputs key => outputs ++ (f key).toList) acc
    = acc ++ ks.filterMap f := by
  induction ks generalizing acc with
  | nil => simp
  | cons key rest ih =>
    simp only [List.foldl_cons, List.filterMap_cons]
    cases hf : f key with
    | none => simp [ih]
    | some kv => simp [ih]

theorem ksm_processOutputs_eq_diffSpec (host : KSMHost) :
    KSM.processOutputs host = ksmDiffSpec host := by
  unfold KSM.processOutputs ksmDiffSpec
  have hstep : (fun (outputs : List (String × Int)) key =>
      match host.getControl ("ksm_" ++ key) with
      | none => outputs
      | some rule_var =>
        if (some rule_var : Option Int) ≠ host.lastApplied ("ksm_" ++ key) then
          outputs ++ [(key, rule_var)]
        else outputs)
      = (fun (outputs : List (String × Int)) key =>
        outputs ++ ((host.getControl ("ksm_" ++ key)).bind (fun rule_var =>
            if (some rule_var : Option Int) ≠ host.lastApplied ("ksm_" ++ key) then
              some (key, rule_var)
            else none)).toList) := by
    funext outputs key
    cases hc : host.getControl ("ksm_" ++ key) with
    | none => simp
    | some rule_var =>
      by_cases hne : (some rule_var : Option Int) ≠ host.lastApplied ("ksm_" ++ key)
      · simp [hne]
      · push_neg at hne
        rw [← hne]
        simp
  rw [hstep]
  simpa using foldl_opt_append_eq_filterMap
    (fun key => (host.getControl ("ksm_" ++ key)).bind (fun rule_var =>
      if (some rule_var : Option Int) ≠ host.lastApplied ("ksm_" ++ key) then
        some (key, rule_var)
      else none)) KSM.keys []

/-- C7: each knob with an absent directive is skipped; when every present,
integer-coerced directive equals the last-applied value, `process` issues zero
hypervisor calls; otherwise it issues exactly one batched `ksmTune` call
carrying exactly the knobs whose coerced directive differs, and no others
(KSM.py:43-59). -/
theorem ksm_process_diff_only (host : KSMHost) :
    KSM.processOutputs host = ksmDiffSpec host ∧
    ((∀ key, key ∈ KSM.keys → ∀ rule_var : Int,
        host.getControl ("ksm_" ++ key) = some rule_var →
        host.lastApplied ("ksm_" ++ key) = some rule_var) →
      KSM.tuneCalls host = []) ∧
    (KSM.processOutputs host ≠ [] →
      KSM.tuneCalls host = [KSM.processOutputs host]) := by
  refine ⟨ksm_processOutputs_eq_diffSpec host, ?_, ?_⟩
  · intro hsame
    have hnil : KSM.processOutputs host = [] := by
      rw [ksm_processOutputs_eq_diffSpec host]
      unfold ksmDiffSpec
      rw [List.filterMap_eq_nil_iff]
      intro key hk
      cases hc : host.getControl ("ksm_" ++ key) with
      | none => rfl
      | some rule_var =>
        have := hsame key hk rule_var hc
        simp [this]
    unfold KSM.tuneCalls
    simp [hnil]
  · intro hne
    unfold KSM.tuneCalls
    have : 0 < (KSM.processOutputs host).length := List.length_pos.mpr hne
    simp [this]

/-- A host whose control directives are all absent this cycle. -/
def hostIdle : KSMHost :=
  { getControl := fun _ => none, lastApplied := fun _ => none }

/-- Witness for C7: a host with no present directive trivially satisfies the
all-knobs-unchanged hypothesis, and `process` issues zero hypervisor calls. -/
theorem ksm_process_diff_only_witness :
    (∀ key, key ∈ KSM.keys → ∀ rule_var : Int,
        hostIdle.getControl ("ksm_" ++ key) = some rule_var →
        hostIdle.lastApplied ("ksm_" ++ key) = some rule_var) ∧
    KSM.tuneCalls hostIdle = [] :=
  ⟨fun key _ rule_var hc => by simp [hostIdle] at hc,
   (ksm_process_diff_only hostIdle).2.1
     (fun key _ rule_var hc => by simp [hostIdle] at hc)⟩

/-- C10: on a first cycle the host object carries no last-applied attribute,
`getattr(host, 'ksm_'+key, None)` yields `None`, the coerced `int` directive
compares unequal to `None`, and the knob is always included in the batched
write (KSM.py:50-53). -/
theorem ksm_first_cycle_writes (host : KSMHost) (key : String) (rule_var : Int)
    (hk : key ∈ KSM.keys)
    (hc : host.getControl ("ksm_" ++ key) = some rule_var)
    (hl : host.lastApplied ("ksm_" ++ key) = none) :
    (key, rule_var) ∈ KSM.processOutputs host ∧
    KSM.tuneCalls host = [KSM.processOutputs host] := by
  have hmem : (key, rule_var) ∈ KSM.processOutputs host := by
    rw [ksm_processOutputs_eq_diffSpec host]
    unfold ksmDiffSpec
    refine List.mem_filterMap.mpr ⟨key, hk, ?_⟩
    rw [hc, hl]
    simp
  refine ⟨hmem, ?_⟩
  unfold KSM.tuneCalls
  have : 0 < (KSM.processOutputs host).length :=
    List.length_pos.mpr (List.ne_nil_of_mem hmem)
  simp [this]

/-- A host on its first cycle: one directive present (`ksm_run = 1`), no
last-applied attributes yet. -/
def hostFirst : KSMHost :=
  { getControl := fun n => if n = "ksm_run" then some 1 else none,
    lastApplied := fun _ => none }

/-- Witness for C10: on the first cycle with directive `ksm_run = 1` and no
last-applied attribute, the `run` knob is in the diff and one batched write is
issued. -/
theorem ksm_first_cycle_writes_witness :
    "run" ∈ KSM.keys ∧
    hostFirst.getControl ("ksm_" ++ "run") = some 1 ∧
    hostFirst.lastApplied ("ksm_" ++ "run") = none ∧
    (("run", (1 : Int)) ∈ KSM.processOutputs hostFirst ∧
      KSM.tuneCalls hostFirst = [KSM.processOutputs hostFirst]) :=
  ⟨by decide, by decide, rfl,
   ksm_first_cycle_writes hostFirst ("run") 1 (by decide) (by decide) rfl⟩

/-- C8: if any non-empty configured name fails to import or its collector's
construction raises `FatalError`, `get_collectors` yields `None` — zero
collectors for that Monitor, never a partial list (Collector.py:80-100). -/
theorem get_collectors_all_or_nothing (resolve : String → ResolveOutcome)
    (names : List String) (acc : List Collector) (n : String)
    (hn : n ∈ names) (hne : n ≠ "")
    (hf : resolve n = ResolveOutcome.importErr ∨
          ∃ msg, resolve n = ResolveOutcome.fatal msg) :
    get_collectors resolve names acc = none := by
  induction names generalizing acc with
  | nil => cases hn
  | cons m rest ih =>
    rcases List.mem_cons.mp hn with hEq | hRest
    · subst hEq
      unfold get_collectors
      rw [if_neg hne]
      rcases hf with h1 | ⟨msg, h1⟩ <;> rw [h1]
    · unfold get_collectors
      by_cases hm : m = ""
      · rw [if_pos hm]
        exact ih acc hRest
      · rw [if_neg hm]
        cases hr : resolve m with
        | ok c => exact ih (acc ++ [c]) hRest
        | importErr => rfl
        | fatal msg => rfl

/-- A collector instance whose construction succeeds, used as the good entry
of the resolver witness. -/
def collGood : Collector :=
  { getFields := [], getOptionalFields := [], collect := CollectResult.ok [] }

/-- A resolver where the name `bad` fails to import and every other name
constructs `collGood`. -/
def resolveBad (n : String) : ResolveOutcome :=
  if n = "bad" then ResolveOutcome.importErr else ResolveOutcome.ok collGood

/-- Witness for C8: the configured list `good, bad` — whose first name
constructs fine and whose second fails to import — yields `None`, not the
one-element list of the good collector. -/
theorem get_collectors_all_or_nothing_witness :
    "bad" ∈ ["good", "bad"] ∧ "bad" ≠ "" ∧
    (resolveBad ("bad") = ResolveOutcome.importErr ∨
      ∃ msg, resolveBad ("bad") = ResolveOutcome.fatal msg) ∧
    get_collectors resolveBad ["good", "bad"] [] = none :=
  ⟨by decide, by decide, Or.inl rfl,
   get_collectors_all_or_nothing resolveBad ["good", "bad"] [] ("bad")
     (by decide) (by decide) (Or.inl rfl)⟩

theorem write_value_eq_toList (fsErr : String → Option String)
    (fname : String) (v : Int) :
    write_value fsErr fname v
      = ((fsErr fname).map (fun e => ksmLog fname e)).toList := by
  unfold write_value
  cases fsErr fname <;> rfl

theorem write_batch_eq_filterMap (fsErr : String → Option String)
    (knobs : List (String × Int)) (acc : List String) :
    knobs.foldl (fun logs kv => logs ++ write_value fsErr kv.1 kv.2) acc
    = acc ++ knobs.filterMap (fun kv => (fsErr kv.1).map (fun e => ksmLog kv.1 e)) := by
  have hstep : (fun (logs : List String) (kv : String × Int) =>
      logs ++ write_value fsErr kv.1 kv.2)
      = (fun logs kv => logs ++ ((fsErr kv.1).map (fun e => ksmLog kv.1 e)).toList) := by
    funext logs kv
    rw [write_value_eq_toList]
  rw [hstep]
  simpa using foldl_opt_append_eq_filterMap
    (fun kv : String × Int => (fsErr kv.1).map (fun e => ksmLog kv.1 e)) knobs acc

/-- C9: per-knob write failures are caught inside `write_value` and surface
only as log lines (KSM.py:36-41) — applying a batch knob-by-knob produces
exactly one warning per failing write, and a knob's failure never prevents a
later knob in the batch from being attempted: every failing knob's log line
appears in the batch log regardless of the other knobs' outcomes, and no
error value escapes (the batch's type carries none). -/
theorem write_value_failure_isolated (fsErr : String → Option String)
    (knobs : List (String × Int)) :
    write_batch fsErr knobs
      = knobs.filterMap (fun kv => (fsErr kv.1).map (fun e => ksmLog kv.1 e)) ∧
    (∀ kv, kv ∈ knobs → ∀ e, fsErr kv.1 = some e →
      ksmLog kv.1 e ∈ write_batch fsErr knobs) := by
  have hb : write_batch fsErr knobs
      = knobs.filterMap (fun kv => (fsErr kv.1).map (fun e => ksmLog kv.1 e)) := by
    unfold write_batch
    simpa using write_batch_eq_filterMap fsErr knobs []
  refine ⟨hb, ?_⟩
  intro kv hkv e he
  rw [hb]
  exact List.mem_filterMap.mpr ⟨kv, hkv, by rw [he]; rfl⟩

/-- A file-system model where the write to the first KSM sysfs file fails with
`EACCES` and every other write succeeds. -/
def fsErrOne (f : String) : Option String :=
  if f = "/sys/kernel/mm/ksm/run" then some ("EACCES") else none

/-- Witness for C9: in a two-knob batch whose first write fails, the failing
knob is logged and the batch still completes — the log is exactly the one
warning line, and it is present in the batch log. -/
theorem write_value_failure_isolated_witness :
    write_batch fsErrOne
      [("/sys/kernel/mm/ksm/run", 1), ("/sys/kernel/mm/ksm/pages_to_scan", 100)]
      = [ksmLog ("/sys/kernel/mm/ksm/run") ("EACCES")] ∧
    (("/sys/kernel/mm/ksm/run", (1 : Int)) ∈
        [("/sys/kernel/mm/ksm/run", (1 : Int)), ("/sys/kernel/mm/ksm/pages_to_scan", 100)] ∧
      fsErrOne ("/sys/kernel/mm/ksm/run") = some ("EACCES") ∧
      ksmLog ("/sys/kernel/mm/ksm/run") ("EACCES") ∈ write_batch fsErrOne
        [("/sys/kernel/mm/ksm/run", 1), ("/sys/kernel/mm/ksm/pages_to_scan", 100)]) :=
  ⟨rfl,
   by decide, rfl,
   (write_value_failure_isolated fsErrOne
       [("/sys/kernel/mm/ksm/run", 1), ("/sys/kernel/mm/ksm/pages_to_scan", 100)]).2
     ("/sys/kernel/mm/ksm/run", 1) (by decide) "EACCES" rfl⟩
